import Mathlib

/-!
Shallow embedding of the coffee-ratings application core
(`src/app/main.py`, `src/app/models.py`).

The persistent store is modelled as explicit in-memory lists of `Venue`
and `Review` rows together with the autoincrement counters for their
primary keys.  Python `float` averages are modelled as `ℚ`; every
concrete value appearing in the claims (4.0, 3.0, 3.5, 3.9, ...) is
exactly representable in binary floating point, so the rational model
agrees with the float computation at those points.  SQLAlchemy
`.first()` over a filter is modelled as `List.find?`, `.all()` as
`List.filter`, and `nullable` columns as `Option`.

Route handlers become state-passing functions `DB → ... → Result × DB`;
a handler that raises before its first `commit` leaves the persisted
store unchanged, which the embedding renders as returning the input
store.
-/

namespace CoffeeRatings

/-- Python `str.lower()` (and SQL `lower(...)`), character-wise lowering
of the string.  Defined by structural recursion over the character list
so that concrete instances evaluate inside the kernel. -/
def pyLower (s : String) : String :=
  ⟨s.data.map Char.toLower⟩

/-- Python `str.strip()`: drop leading and trailing whitespace. -/
def pyStrip (s : String) : String :=
  ⟨((s.data.dropWhile Char.isWhitespace).reverse.dropWhile Char.isWhitespace).reverse⟩

/-- Embeds `models.Venue` (src/app/models.py lines 8-32): identity, free-text
name/location, optional postcode/coordinates/creator, and the seven
nullable denormalized average columns. -/
structure Venue where
  id : Nat
  name : String
  location : String
  postcode : Option String
  latitude : Option ℚ
  longitude : Option ℚ
  created_by : Option String
  avg_coffee : Option ℚ
  avg_cost : Option ℚ
  avg_service : Option ℚ
  avg_hygiene : Option ℚ
  avg_ambience : Option ℚ
  avg_food : Option ℚ
  avg_total_score : Option ℚ
deriving DecidableEq, Repr

/-- Embeds `models.Review` (src/app/models.py lines 35-63): six integer
category scores, the two derived integers, the raw venue-text snapshot,
and the submitter fields.  `visit_date` is a `String` column in the
source, so it stays a string here. -/
structure Review where
  id : Nat
  venue_id : Nat
  venue_name_raw : String
  venue_location_raw : String
  coffee : Int
  cost : Int
  service : Int
  hygiene : Int
  ambience : Int
  food : Int
  total_score : Int
  category_count : Int
  notes : String
  reviewer_name : String
  identity_pin : String
  visit_date : String
deriving DecidableEq, Repr

/-- The persistent store: the two tables plus their autoincrement
counters (SQLite assigns `max+1`; the counter form captures that a fresh
row gets an id no existing row of that table has). -/
structure DB where
  next_venue_id : Nat
  next_review_id : Nat
  venues : List Venue
  reviews : List Review
deriving DecidableEq, Repr

/-- Embeds `safe_avg` (main.py lines 44-45): `sum(values) / len(values) if
values else None`. -/
def safe_avg (values : List ℚ) : Option ℚ :=
  if values.isEmpty then none else some (values.sum / values.length)

/-- Overwrites all seven average columns of a venue row (main.py lines
34-40 and 62-68 write exactly these seven attributes). -/
def setAverages (v : Venue) (c co s h a f t : Option ℚ) : Venue :=
  { v with
    avg_coffee := c,
    avg_cost := co,
    avg_service := s,
    avg_hygiene := h,
    avg_ambience := a,
    avg_food := f,
    avg_total_score := t }

/-- Embeds `update_venue_averages` (main.py lines 27-70).  With no reviews for
the venue the seven averages are reset to `None` (lines 30-42); with a
missing venue row that branch returns without writing, and in the
nonempty branch the Python would raise on the `None` venue before its
`commit`, so in either case a missing row leaves the store unchanged —
rendered here by the `map` finding no row with that id.  Otherwise the
five always-present categories average over all reviews, food averages
over the reviews with `food != 0`, and the overall average is the mean
of each review's `total_score / category_count` (lines 44-59). -/
def update_venue_averages (db : DB) (venue_id : Nat) : DB :=
  let reviews := db.reviews.filter (fun r => r.venue_id == venue_id)
  if reviews.isEmpty then
    { db with venues := db.venues.map (fun v =>
        if v.id == venue_id then setAverages v none none none none none none none else v) }
  else
    let avg_coffee := safe_avg (reviews.map (fun r => (r.coffee : ℚ)))
    let avg_cost := safe_avg (reviews.map (fun r => (r.cost : ℚ)))
    let avg_service := safe_avg (reviews.map (fun r => (r.service : ℚ)))
    let avg_hygiene := safe_avg (reviews.map (fun r => (r.hygiene : ℚ)))
    let avg_ambience := safe_avg (reviews.map (fun r => (r.ambience : ℚ)))
    let avg_food := safe_avg ((reviews.filter (fun r => !(r.food == 0))).map (fun r => (r.food : ℚ)))
    let weighted_scores := reviews.map (fun r => (r.total_score : ℚ) / (r.category_count : ℚ))
    let avg_total := weighted_scores.sum / weighted_scores.length
    { db with venues := db.venues.map (fun v =>
        if v.id == venue_id then
          setAverages v avg_coffee avg_cost avg_service avg_hygiene avg_ambience avg_food (some avg_total)
        else v) }

/-- The venue filter used by both get-or-create blocks (main.py lines
326-331 and 470-477): `lower(Venue.name) == name.strip().lower()` and
likewise for location. -/
def venueMatches (venue_name location : String) (v : Venue) : Bool :=
  pyLower v.name == pyLower (pyStrip venue_name) &&
    pyLower v.location == pyLower (pyStrip location)

/-- A fresh venue row as created by the get-or-create blocks (main.py
lines 334-338 and 479-483): only `name` and `location` are populated. -/
def freshVenue (db : DB) (venue_name location : String) : Venue :=
  { id := db.next_venue_id,
    name := pyStrip venue_name,
    location := pyStrip location,
    postcode := none,
    latitude := none,
    longitude := none,
    created_by := none,
    avg_coffee := none,
    avg_cost := none,
    avg_service := none,
    avg_hygiene := none,
    avg_ambience := none,
    avg_food := none,
    avg_total_score := none }

/-- The get-or-create venue block, identical in `add_review` (main.py
lines 324-338) and `edit_review_save` (lines 469-483): `.first()` over
the case-insensitive name+location filter, else create and commit a new
venue. -/
def resolve_venue (db : DB) (venue_name location : String) : Venue × DB :=
  match db.venues.find? (venueMatches venue_name location) with
  | some v => (v, db)
  | none =>
    let v := freshVenue db venue_name location
    (v, { db with venues := db.venues ++ [v], next_venue_id := db.next_venue_id + 1 })

/-- The form fields of the submission/edit routes (main.py lines
310-321 and 446-458). -/
structure ReviewForm where
  venue_name : String
  location : String
  visit_date : String
  reviewer_name : String
  identity_pin : String
  coffee : Int
  cost : Int
  service : Int
  hygiene : Int
  ambience : Int
  food : Int
  notes : String
deriving DecidableEq, Repr

/-- Outcome of `add_review`: either the `duplicate_prompt.html`
response carrying the existing review and the resolved venue id (main.py
lines 351-374) or the redirect to `/reviews` (line 402). -/
inductive AddReviewResult where
  | duplicatePrompt (existing_review_id : Nat) (venue_id : Nat)
  | redirectReviews
deriving DecidableEq, Repr

/-- The duplicate filter (main.py lines 341-349 and 280-288): same
`identity_pin`, same `venue_id`, same `visit_date`. -/
def reviewConflicts (identity_pin : String) (venue_id : Nat) (visit_date : String)
    (r : Review) : Bool :=
  r.identity_pin == identity_pin && r.venue_id == venue_id && r.visit_date == visit_date

/-- Embeds `check_duplicate` (main.py lines 272-301): the read-only duplicate
probe; returns the conflicting review when one exists. -/
def check_duplicate (db : DB) (identity_pin : String) (venue_id : Nat)
    (visit_date : String) : Option Review :=
  db.reviews.find? (reviewConflicts identity_pin venue_id visit_date)

/-- Embeds `add_review` (main.py lines 307-402): get-or-create the venue,
probe for a duplicate of the (identity_pin, venue, visit_date) triple —
returning the duplicate prompt without creating a review when one
exists — else persist the review with `total_score` the sum of all six
scores and `category_count = 6` (lines 377-378), then recompute the
venue's averages. -/
def add_review (db : DB) (f : ReviewForm) : AddReviewResult × DB :=
  let vdb := resolve_venue db f.venue_name f.location
  let venue := vdb.1
  let db1 := vdb.2
  match db1.reviews.find? (reviewConflicts f.identity_pin venue.id f.visit_date) with
  | some existing => (.duplicatePrompt existing.id venue.id, db1)
  | none =>
    let total_score := f.coffee + f.cost + f.service + f.hygiene + f.ambience + f.food
    let category_count : Int := 6
    let review : Review :=
      { id := db1.next_review_id,
        venue_id := venue.id,
        venue_name_raw := venue.name,
        venue_location_raw := venue.location,
        coffee := f.coffee,
        cost := f.cost,
        service := f.service,
        hygiene := f.hygiene,
        ambience := f.ambience,
        food := f.food,
        total_score := total_score,
        category_count := category_count,
        notes := pyStrip f.notes,
        reviewer_name := pyStrip f.reviewer_name,
        identity_pin := pyStrip f.identity_pin,
        visit_date := f.visit_date }
    let db2 : DB :=
      { db1 with
        reviews := db1.reviews ++ [review],
        next_review_id := db1.next_review_id + 1 }
    (.redirectReviews, update_venue_averages db2 venue.id)

/-- Outcome of the edit / duplicate-update / delete routes: redirects
with `msg=notfound`, `msg=denied`, or the success message. -/
inductive MutResult where
  | notfound
  | denied
  | ok
deriving DecidableEq, Repr

/-- Embeds `edit_review_save` (main.py lines 444-513): look the review up by
id, refuse on a trimmed identity-pin mismatch, get-or-create the venue,
overwrite the review's fields — including the raw venue-text snapshot
(lines 488-490) and the derived `total_score`/`category_count = 6`
(lines 503-504) — then recompute averages for the new venue and, when it
changed and is nonzero (Python truthiness of `old_venue_id`), for the
old one. -/
def edit_review_save (db : DB) (review_id : Nat) (f : ReviewForm) : MutResult × DB :=
  match db.reviews.find? (fun r => r.id == review_id) with
  | none => (.notfound, db)
  | some r =>
    if !(pyStrip f.identity_pin == pyStrip r.identity_pin) then (.denied, db)
    else
      let vdb := resolve_venue db f.venue_name f.location
      let venue := vdb.1
      let db1 := vdb.2
      let old_venue_id := r.venue_id
      let updated : Review :=
        { r with
          venue_id := venue.id,
          venue_name_raw := venue.name,
          venue_location_raw := venue.location,
          reviewer_name := pyStrip f.reviewer_name,
          visit_date := f.visit_date,
          coffee := f.coffee,
          cost := f.cost,
          service := f.service,
          hygiene := f.hygiene,
          ambience := f.ambience,
          food := f.food,
          notes := pyStrip f.notes,
          total_score := f.coffee + f.cost + f.service + f.hygiene + f.ambience + f.food,
          category_count := 6 }
      let db2 := { db1 with reviews := db1.reviews.map (fun x =>
                    if x.id == review_id then updated else x) }
      let db3 := update_venue_averages db2 venue.id
      let db4 := if !(old_venue_id == 0) && !(old_venue_id == venue.id) then
                   update_venue_averages db3 old_venue_id
                 else db3
      (.ok, db4)

/-- Embeds `duplicate_update` (main.py lines 519-557): look the stored review
up by the posted `existing_review_id`, refuse on a raw identity-pin
mismatch (line 540), else overwrite the review's scores, date, name and
notes — the posted `venue_id`/`visit_date` are never compared with the
stored review, `visit_date` is simply written in, and `total_score` /
`category_count` are left untouched — then recompute averages for the
posted `venue_id`. -/
def duplicate_update (db : DB) (existing_review_id : Nat) (venue_id : Nat)
    (visit_date reviewer_name identity_pin : String)
    (coffee cost service hygiene ambience food : Int) (notes : String) :
    MutResult × DB :=
  match db.reviews.find? (fun r => r.id == existing_review_id) with
  | none => (.notfound, db)
  | some existing =>
    if !(existing.identity_pin == identity_pin) then (.denied, db)
    else
      let updated : Review :=
        { existing with
          reviewer_name := pyStrip reviewer_name,
          visit_date := visit_date,
          coffee := coffee,
          cost := cost,
          service := service,
          hygiene := hygiene,
          ambience := ambience,
          food := food,
          notes := pyStrip notes }
      let db1 := { db with reviews := db.reviews.map (fun x =>
                    if x.id == existing_review_id then updated else x) }
      (.ok, update_venue_averages db1 venue_id)

/-- Embeds `delete_review` (main.py lines 89-111): look the review up by id,
refuse on a raw identity-pin mismatch, else delete the row and recompute
the former venue's averages. -/
def delete_review (db : DB) (review_id : Nat) (identity_pin : String) : MutResult × DB :=
  match db.reviews.find? (fun r => r.id == review_id) with
  | none => (.notfound, db)
  | some review =>
    if !(review.identity_pin == identity_pin) then (.denied, db)
    else
      let venue_id := review.venue_id
      let db1 := { db with reviews := db.reviews.filter (fun x => !(x.id == review_id)) }
      (.ok, update_venue_averages db1 venue_id)

/-! ## Concrete stores and submissions used to instantiate the theorems -/

/-- A fresh, empty store. -/
def emptyDB : DB := { next_venue_id := 1, next_review_id := 1, venues := [], reviews := [] }

/-- The spec's worked-example review R1: food = 0. -/
def formR1 : ReviewForm :=
  { venue_name := "V", location := "L", visit_date := "2024-01-01",
    reviewer_name := "A", identity_pin := "p1",
    coffee := 5, cost := 4, service := 5, hygiene := 5, ambience := 5, food := 0,
    notes := "" }

/-- The spec's worked-example review R2: all six categories 3. -/
def formR2 : ReviewForm :=
  { venue_name := "V", location := "L", visit_date := "2024-01-02",
    reviewer_name := "B", identity_pin := "p2",
    coffee := 3, cost := 3, service := 3, hygiene := 3, ambience := 3, food := 3,
    notes := "" }

/-- The store after submitting R1 and R2 through the review-creation
path. -/
def dbTwoReviews : DB := (add_review (add_review emptyDB formR1).2 formR2).2

/-- The review row `add_review` persists for `formR1` on the empty
store. -/
def reviewR1 : Review :=
  { id := 1, venue_id := 1, venue_name_raw := "V", venue_location_raw := "L",
    coffee := 5, cost := 4, service := 5, hygiene := 5, ambience := 5, food := 0,
    total_score := 24, category_count := 6,
    notes := "", reviewer_name := "A", identity_pin := "p1", visit_date := "2024-01-01" }

/-- A venue row with no averages recorded. -/
def mkVenue (id : Nat) (name location : String) : Venue :=
  { id := id, name := name, location := location,
    postcode := none, latitude := none, longitude := none, created_by := none,
    avg_coffee := none, avg_cost := none, avg_service := none, avg_hygiene := none,
    avg_ambience := none, avg_food := none, avg_total_score := none }

/-- A one-venue, one-review store: venue 1 "Corner"/"High St" with the
review `reviewROne` (submitter pin "p", visit date 2024-01-01). -/
def reviewROne : Review :=
  { id := 1, venue_id := 1, venue_name_raw := "Corner", venue_location_raw := "High St",
    coffee := 5, cost := 4, service := 5, hygiene := 5, ambience := 5, food := 0,
    total_score := 24, category_count := 6,
    notes := "", reviewer_name := "A", identity_pin := "p", visit_date := "2024-01-01" }

/-- The store holding venue 1 and `reviewROne`. -/
def dbOne : DB :=
  { next_venue_id := 2, next_review_id := 2,
    venues := [mkVenue 1 "Corner" "High St"], reviews := [reviewROne] }

/-- Two venue rows that both match the normalized (trimmed,
case-insensitive) name "Blue Bottle" + location "Main St". -/
def dbBlue : DB :=
  { next_venue_id := 3, next_review_id := 1,
    venues := [mkVenue 1 "Blue Bottle" "Main St", mkVenue 2 "blue bottle" "main st"],
    reviews := [] }

/-- A submission naming the ambiguous venue of `dbBlue`. -/
def formBlue : ReviewForm :=
  { venue_name := "Blue Bottle", location := "Main St", visit_date := "2024-03-01",
    reviewer_name := "C", identity_pin := "q",
    coffee := 1, cost := 1, service := 1, hygiene := 1, ambience := 1, food := 1,
    notes := "" }

/-- A resubmission of `reviewROne`'s (identity token, venue, visit
date) triple against `dbOne`, with different scores. -/
def formDupOne : ReviewForm :=
  { venue_name := "Corner", location := "High St", visit_date := "2024-01-01",
    reviewer_name := "A", identity_pin := "p",
    coffee := 2, cost := 2, service := 2, hygiene := 2, ambience := 2, food := 2,
    notes := "" }

/-- An edit of review 1 of `dbOne` by its owner, moving it to a venue
name that does not exist yet. -/
def formEditOne : ReviewForm :=
  { venue_name := "New Cafe", location := "Low St", visit_date := "2024-01-01",
    reviewer_name := "A", identity_pin := "p",
    coffee := 2, cost := 2, service := 2, hygiene := 2, ambience := 2, food := 2,
    notes := "" }

/-- A submission whose visit date is not a parsable calendar date. -/
def formBadDate : ReviewForm :=
  { venue_name := "V", location := "L", visit_date := "not-a-date",
    reviewer_name := "A", identity_pin := "p1",
    coffee := 1, cost := 1, service := 1, hygiene := 1, ambience := 1, food := 1,
    notes := "" }

/-- Venue 1 of `dbOne` after its averages have been reset to
"unknown". -/
def venueOneCleared : Venue := mkVenue 1 "Corner" "High St"

/-- A review row referencing venue id 1 in a store whose venue table
does not hold that id. -/
def reviewDangling : Review := { reviewROne with id := 7, venue_id := 1 }

/-- A store whose review table holds a row referencing venue id 1 while
the venue table is empty and the next venue id is 1 (SQLite does not
enforce the foreign key by default, so such a row can exist). -/
def dbDangling : DB :=
  { next_venue_id := 1, next_review_id := 8,
    venues := [],
    reviews := [reviewDangling] }

/-- A submission whose visit date lies in the future. -/
def formFutureDate : ReviewForm := { formBadDate with visit_date := "2999-12-31" }

/-- Review 1 of `dbOne` after `edit_review_save` with `formEditOne`:
the venue reference and the raw snapshot now name the newly created
venue 2 "New Cafe"/"Low St". -/
def reviewEditedOne : Review :=
  { id := 1, venue_id := 2, venue_name_raw := "New Cafe", venue_location_raw := "Low St",
    coffee := 2, cost := 2, service := 2, hygiene := 2, ambience := 2, food := 2,
    total_score := 12, category_count := 6,
    notes := "", reviewer_name := "A", identity_pin := "p", visit_date := "2024-01-01" }

/-- Review 1 of `dbOne` after a confirmed duplicate overwrite with all
scores 2: the snapshot, `total_score` and `category_count` keep their
stored values. -/
def reviewOverwrittenOne : Review :=
  { reviewROne with coffee := 2, cost := 2, service := 2, hygiene := 2, ambience := 2, food := 2 }

/-- A submission against `dbDangling` that creates venue 1 and then
collides with the dangling review's (pin, venue, date) triple. -/
def formDangling : ReviewForm :=
  { venue_name := "Corner", location := "High St", visit_date := "2024-01-01",
    reviewer_name := "A", identity_pin := "p",
    coffee := 1, cost := 1, service := 1, hygiene := 1, ambience := 1, food := 1,
    notes := "" }

/-- States that all seven average columns of a venue row are "unknown"
(`None`). -/
def avgsCleared (v : Venue) : Prop :=
  v.avg_coffee = none ∧ v.avg_cost = none ∧ v.avg_service = none ∧
  v.avg_hygiene = none ∧ v.avg_ambience = none ∧ v.avg_food = none ∧
  v.avg_total_score = none

instance (v : Venue) : Decidable (avgsCleared v) := by
  unfold avgsCleared
  infer_instance

/-! ## General lemmas about the operations -/

/-- Average recomputation never touches the `reviews` table. -/
theorem update_venue_averages_reviews (db : DB) (vid : Nat) :
    (update_venue_averages db vid).reviews = db.reviews := by
  unfold update_venue_averages
  by_cases h : (db.reviews.filter (fun r => r.venue_id == vid)).isEmpty <;> simp [h]

/-- Venue get-or-create never touches the `reviews` table. -/
theorem resolve_venue_reviews (db : DB) (n l : String) :
    ((resolve_venue db n l).2).reviews = db.reviews := by
  unfold resolve_venue
  cases db.venues.find? (venueMatches n l) <;> rfl

/-- SQLAlchemy `.first()` returns the head of the filtered row set. -/
theorem find?_eq_filter_head? {α : Type} (p : α → Bool) (l : List α) :
    l.find? p = (l.filter p).head? := by
  induction l with
  | nil => rfl
  | cons a t ih =>
    cases h : p a with
    | true => simp [List.find?_cons, List.filter_cons, h]
    | false =>
      rw [List.find?_cons, List.filter_cons, h, ih]
      simp

/-- The per-venue rewrite performed by `update_venue_averages`,
factored out of the two branches of the source function: the branch
condition and the seven written values depend only on the review table,
not on the venue row being rewritten. -/
def venueUpdater (rs : List Review) (vid : Nat) (v : Venue) : Venue :=
  let reviews := rs.filter (fun r => r.venue_id == vid)
  if reviews.isEmpty then
    if v.id == vid then setAverages v none none none none none none none else v
  else
    if v.id == vid then
      setAverages v
        (safe_avg (reviews.map (fun r => (r.coffee : ℚ))))
        (safe_avg (reviews.map (fun r => (r.cost : ℚ))))
        (safe_avg (reviews.map (fun r => (r.service : ℚ))))
        (safe_avg (reviews.map (fun r => (r.hygiene : ℚ))))
        (safe_avg (reviews.map (fun r => (r.ambience : ℚ))))
        (safe_avg ((reviews.filter (fun r => !(r.food == 0))).map (fun r => (r.food : ℚ))))
        (some ((reviews.map (fun r => (r.total_score : ℚ) / (r.category_count : ℚ))).sum /
               (reviews.map (fun r => (r.total_score : ℚ) / (r.category_count : ℚ))).length))
    else v

/-- Characterization of `update_venue_averages` as a pointwise rewrite
of the venue table. -/
theorem update_venue_averages_eq (db : DB) (vid : Nat) :
    update_venue_averages db vid =
      { db with venues := db.venues.map (venueUpdater db.reviews vid) } := by
  unfold update_venue_averages venueUpdater
  by_cases h : (db.reviews.filter (fun r => r.venue_id == vid)).isEmpty <;> simp [h]

/-- The pointwise rewrite keeps the row's primary key. -/
theorem venueUpdater_id (rs : List Review) (vid : Nat) (v : Venue) :
    (venueUpdater rs vid v).id = v.id := by
  unfold venueUpdater
  by_cases h : (rs.filter (fun r => r.venue_id == vid)).isEmpty <;>
    by_cases h2 : v.id == vid <;> simp [h, h2, setAverages]

/-- The pointwise rewrite is idempotent: it overwrites the seven
average columns with values that do not depend on them. -/
theorem venueUpdater_idem (rs : List Review) (vid : Nat) (v : Venue) :
    venueUpdater rs vid (venueUpdater rs vid v) = venueUpdater rs vid v := by
  by_cases h2 : v.id == vid
  · unfold venueUpdater
    by_cases h : (rs.filter (fun r => r.venue_id == vid)).isEmpty <;> simp [h, h2, setAverages]
  · unfold venueUpdater
    by_cases h : (rs.filter (fun r => r.venue_id == vid)).isEmpty <;> simp [h, h2]

/-- C8: recomputing a venue's averages twice in a row with no
intervening writes yields the identical store, hence identical average
fields (idempotence of `update_venue_averages`). -/
theorem C8_update_venue_averages_idempotent (db : DB) (venue_id : Nat) :
    update_venue_averages (update_venue_averages db venue_id) venue_id =
      update_venue_averages db venue_id := by
  have h1 := update_venue_averages_eq db venue_id
  have h2 := update_venue_averages_eq (update_venue_averages db venue_id) venue_id
  rw [h2, update_venue_averages_reviews, h1]
  simp only [List.map_map]
  congr 1
  exact List.map_congr_left (fun v _ => venueUpdater_idem db.reviews venue_id v)

/-- With no remaining reviews for the venue, the pointwise rewrite
resets every average column. -/
theorem venueUpdater_cleared (rs : List Review) (vid : Nat) (v : Venue)
    (hemp : rs.filter (fun r => r.venue_id == vid) = []) (hid : v.id = vid) :
    avgsCleared (venueUpdater rs vid v) := by
  unfold venueUpdater
  simp [hemp, hid, setAverages, avgsCleared]

/-- Any venue row with the recomputed id comes out of a zero-review
recomputation with every average column reset. -/
theorem update_cleared (db : DB) (vid : Nat) (v : Venue)
    (hemp : db.reviews.filter (fun x => x.venue_id == vid) = [])
    (hmem : v ∈ (update_venue_averages db vid).venues) (hid : v.id = vid) :
    avgsCleared v := by
  rw [update_venue_averages_eq] at hmem
  obtain ⟨w, _, hw⟩ := List.mem_map.mp hmem
  have hwid : w.id = vid := by
    have := venueUpdater_id db.reviews vid w
    rw [hw] at this
    omega
  rw [← hw]
  exact venueUpdater_cleared db.reviews vid w hemp hwid

/-- C9: a venue with zero remaining reviews has all six category
averages and the overall average reset to "unknown" by recomputation;
in particular, after its original submitter deletes a venue's only
review, every average field of that venue is unknown. -/
theorem C9_no_reviews_averages_unknown (db : DB) (vid rid : Nat) (pin : String)
    (r : Review) (v : Venue) :
    (db.reviews.filter (fun x => x.venue_id == vid) = [] →
      v ∈ (update_venue_averages db vid).venues → v.id = vid → avgsCleared v) ∧
    (db.reviews.find? (fun x => x.id == rid) = some r →
      r.identity_pin = pin →
      (∀ x ∈ db.reviews, x.venue_id = r.venue_id → x.id = r.id) →
      v ∈ (delete_review db rid pin).2.venues → v.id = r.venue_id → avgsCleared v) := by
  constructor
  · exact fun hemp hmem hid => update_cleared db vid v hemp hmem hid
  · intro hfind hpin honly hmem hid
    have hrid : r.id = rid := by simpa using List.find?_some hfind
    unfold delete_review at hmem
    rw [hfind] at hmem
    simp only [hpin, beq_self_eq_true, Bool.not_true, Bool.false_eq_true, if_false,
      Bool.not_eq_true'] at hmem
    refine update_cleared _ r.venue_id v ?_ hmem hid
    refine List.filter_eq_nil_iff.mpr ?_
    intro x hx
    have hx1 : x ∈ db.reviews := (List.mem_filter.mp hx).1
    have hx2 : ¬(x.id == rid) = true := by
      have := (List.mem_filter.mp hx).2
      simp at this
      simp [this]
    intro hveq
    exact hx2 (by simp [honly x hx1 (by simpa using hveq), hrid])

/-- C5: resubmitting an existing (identity token, venue, visit date)
triple through `add_review` creates no second review row and returns the
overwrite-or-discard prompt for the existing review. -/
theorem C5_duplicate_triple_prompts_not_creates (db : DB) (f : ReviewForm) (r : Review)
    (hdup : db.reviews.find? (reviewConflicts f.identity_pin
              (resolve_venue db f.venue_name f.location).1.id f.visit_date) = some r) :
    (add_review db f).1 =
      .duplicatePrompt r.id (resolve_venue db f.venue_name f.location).1.id ∧
    (add_review db f).2.reviews = db.reviews := by
  simp only [add_review]
  rw [resolve_venue_reviews, hdup]
  exact ⟨rfl, resolve_venue_reviews db f.venue_name f.location⟩

/-- C10: when the submission's venue does not exist yet and the
store already holds a review matching (identity token, the id the new
venue receives, visit date), `add_review` returns the duplicate prompt
and the freshly created venue row is nevertheless committed: the
conflict path is not free of writes. -/
theorem C10_conflict_path_commits_new_venue (db : DB) (f : ReviewForm) (r : Review)
    (hnov : db.venues.find? (venueMatches f.venue_name f.location) = none)
    (hdup : db.reviews.find? (reviewConflicts f.identity_pin db.next_venue_id f.visit_date)
      = some r) :
    (add_review db f).1 = .duplicatePrompt r.id db.next_venue_id ∧
    (add_review db f).2.venues = db.venues ++ [freshVenue db f.venue_name f.location] ∧
    (add_review db f).2.venues ≠ db.venues := by
  unfold add_review resolve_venue
  rw [hnov]
  simp only [freshVenue, hdup]
  refine ⟨trivial, trivial, ?_⟩
  intro hcontra
  have := congrArg List.length hcontra
  simp at this

/-- Witness for C9: deleting the only review of venue 1 in `dbOne`
leaves that venue with every average field unknown. -/
theorem C9_no_reviews_averages_unknown_witness :
    dbOne.reviews.find? (fun x => x.id == 1) = some reviewROne ∧
    reviewROne.identity_pin = "p" ∧
    venueOneCleared ∈ (delete_review dbOne 1 "p").2.venues ∧
    avgsCleared venueOneCleared :=
  ⟨by decide, by decide, by decide,
    (C9_no_reviews_averages_unknown dbOne 1 1 "p" reviewROne venueOneCleared).2
      (by decide) (by decide) (by decide) (by decide) (by decide)⟩

/-- Witness for C5: resubmitting `reviewROne`'s triple against `dbOne`
returns the duplicate prompt and leaves the review table unchanged. -/
theorem C5_duplicate_triple_prompts_not_creates_witness :
    (add_review dbOne formDupOne).1 =
      .duplicatePrompt reviewROne.id
        (resolve_venue dbOne formDupOne.venue_name formDupOne.location).1.id ∧
    (add_review dbOne formDupOne).2.reviews = dbOne.reviews :=
  C5_duplicate_triple_prompts_not_creates dbOne formDupOne reviewROne (by decide)

/-- Witness for C10: against `dbDangling`, the submission `formDangling`
hits the duplicate prompt yet the new venue row is committed. -/
theorem C10_conflict_path_commits_new_venue_witness :
    (add_review dbDangling formDangling).1 =
      .duplicatePrompt reviewDangling.id dbDangling.next_venue_id ∧
    (add_review dbDangling formDangling).2.venues =
      dbDangling.venues ++
        [freshVenue dbDangling formDangling.venue_name formDangling.location] ∧
    (add_review dbDangling formDangling).2.venues ≠ dbDangling.venues :=
  C10_conflict_path_commits_new_venue dbDangling formDangling reviewDangling
    (by decide) (by decide)

/-- C1 is false on the code as stated: submitting `formR1`, whose food
score is 0, persists a review with `category_count = 6`, not 5 (main.py
line 378 always assigns 6). -/
theorem C1_counterexample :
    formR1.food = 0 ∧
    (add_review emptyDB formR1).2.reviews = [reviewR1] ∧
    reviewR1.category_count = 6 ∧ ¬ reviewR1.category_count = 5 := by
  decide

/-- C1 amended: every review persisted via new-submission or edit gets
`category_count = 6` regardless of the food score, and `total_score`
equal to the sum of all six category scores (when food = 0 this integer
coincides with the sum of the five participating categories). -/
theorem C1_amended_derived_fields (db : DB) (f : ReviewForm) (rid : Nat) (r : Review) :
    (r ∈ (add_review db f).2.reviews → r ∈ db.reviews ∨
      (r.category_count = 6 ∧
        r.total_score = f.coffee + f.cost + f.service + f.hygiene + f.ambience + f.food)) ∧
    (r ∈ (edit_review_save db rid f).2.reviews → r ∈ db.reviews ∨
      (r.category_count = 6 ∧
        r.total_score = f.coffee + f.cost + f.service + f.hygiene + f.ambience + f.food)) := by
  constructor
  · intro hmem
    simp only [add_review] at hmem
    rw [resolve_venue_reviews] at hmem
    cases hfind : db.reviews.find? (reviewConflicts f.identity_pin
        (resolve_venue db f.venue_name f.location).1.id f.visit_date) with
    | some e =>
      rw [hfind] at hmem
      simp only at hmem
      rw [resolve_venue_reviews] at hmem
      exact Or.inl hmem
    | none =>
      rw [hfind] at hmem
      simp only [update_venue_averages_reviews] at hmem
      rcases List.mem_append.mp hmem with h | h
      · exact Or.inl h
      · right
        rcases List.mem_singleton.mp h with rfl
        exact ⟨rfl, rfl⟩
  · intro hmem
    simp only [edit_review_save] at hmem
    cases hfind : db.reviews.find? (fun x => x.id == rid) with
    | none =>
      rw [hfind] at hmem
      exact Or.inl hmem
    | some r0 =>
      rw [hfind] at hmem
      by_cases hpin : (pyStrip f.identity_pin == pyStrip r0.identity_pin) = true
      · simp only [hpin, Bool.not_true, Bool.false_eq_true, if_false] at hmem
        have hrev : ∀ (st : DB) (b : Bool) (i : Nat),
            ((if b then update_venue_averages st i else st)).reviews = st.reviews := by
          intro st b i
          cases b <;> simp [update_venue_averages_reviews]
        rw [hrev, update_venue_averages_reviews, resolve_venue_reviews] at hmem
        rcases List.mem_map.mp hmem with ⟨x, hx, hxr⟩
        by_cases hid : (x.id == rid) = true
        · rw [if_pos hid] at hxr
          right
          rw [← hxr]
          exact ⟨rfl, rfl⟩
        · rw [if_neg hid] at hxr
          exact Or.inl (hxr ▸ hx)
      · simp only [hpin, Bool.not_false, if_true] at hmem
        exact Or.inl hmem

/-- Witness for the amended C1: the review persisted for `formR1`
(food = 0) carries `category_count = 6` and the six-score sum 24. -/
theorem C1_amended_derived_fields_witness :
    reviewR1 ∈ (add_review emptyDB formR1).2.reviews ∧
    (reviewR1 ∈ emptyDB.reviews ∨
      (reviewR1.category_count = 6 ∧
        reviewR1.total_score = formR1.coffee + formR1.cost + formR1.service +
          formR1.hygiene + formR1.ambience + formR1.food)) :=
  ⟨by decide, (C1_amended_derived_fields emptyDB formR1 0 reviewR1).1 (by decide)⟩

/-- C2 is false on the code at the spec's own worked example: with
R1(5,4,5,5,5,food=0) and R2(3,3,3,3,3,3) submitted through
`add_review`, `avg_coffee = 4` and `avg_food = 3` hold, but the overall
average is mean(24/6, 18/6) = 3.5, not the claimed mean(24/5, 18/6) =
3.9, because R1 is stored with `category_count = 6`. -/
theorem C2_counterexample :
    (add_review emptyDB formR1).1 = .redirectReviews ∧
    (add_review (add_review emptyDB formR1).2 formR2).1 = .redirectReviews ∧
    dbTwoReviews.venues.map Venue.avg_coffee = [some 4] ∧
    dbTwoReviews.venues.map Venue.avg_food = [some 3] ∧
    dbTwoReviews.venues.map Venue.avg_total_score = [some ((7 : ℚ)/2)] ∧
    (7 : ℚ)/2 ≠ 39/10 := by
  refine ⟨by decide, by decide, ?_, ?_, ?_, by norm_num⟩ <;>
    · simp [dbTwoReviews, emptyDB, formR1, formR2, add_review, resolve_venue, venueMatches,
        freshVenue, pyLower, pyStrip, update_venue_averages, safe_avg, setAverages,
        reviewConflicts]
      try norm_num

/-- C2 amended: at the worked example the code yields `avg_coffee = 4`,
`avg_food = 3` (only R2 participates), and overall average
mean(24/6, 18/6) = 3.5, since every stored review has
`category_count = 6`. -/
theorem C2_amended_worked_example :
    dbTwoReviews.venues.map (fun v =>
      (v.avg_coffee, v.avg_cost, v.avg_service, v.avg_hygiene, v.avg_ambience,
        v.avg_food, v.avg_total_score)) =
      [(some 4, some ((7 : ℚ)/2), some 4, some 4, some 4, some 3, some ((7 : ℚ)/2))] := by
  simp [dbTwoReviews, emptyDB, formR1, formR2, add_review, resolve_venue, venueMatches,
    freshVenue, pyLower, pyStrip, update_venue_averages, safe_avg, setAverages,
    reviewConflicts]
  norm_num

/-- C3 is false on the code: with two venues both matching the
normalized "Blue Bottle" + "Main St" and no postcode logic anywhere,
`add_review` signals nothing and silently uses the first candidate
(venue 1), persisting the review against it. -/
theorem C3_counterexample :
    (dbBlue.venues.filter (venueMatches formBlue.venue_name formBlue.location)).length = 2 ∧
    resolve_venue dbBlue formBlue.venue_name formBlue.location =
      (mkVenue 1 "Blue Bottle" "Main St", dbBlue) ∧
    (add_review dbBlue formBlue).1 = .redirectReviews ∧
    (add_review dbBlue formBlue).2.reviews.map Review.venue_id = [1] := by
  decide

/-- C3 amended: when more than one venue row matches the normalized
name+location, venue resolution silently returns the first match in
table order — no `AmbiguousVenue` signal exists in the code. -/
theorem C3_amended_first_match_wins (db : DB) (n l : String) (v w : Venue)
    (rest : List Venue)
    (h : db.venues.filter (venueMatches n l) = v :: w :: rest) :
    resolve_venue db n l = (v, db) := by
  unfold resolve_venue
  rw [find?_eq_filter_head?, h]
  rfl

/-- Witness for the amended C3 at `dbBlue`: both rows match, the first
one is returned. -/
theorem C3_amended_first_match_wins_witness :
    resolve_venue dbBlue "Blue Bottle" "Main St" =
      (mkVenue 1 "Blue Bottle" "Main St", dbBlue) :=
  C3_amended_first_match_wins dbBlue "Blue Bottle" "Main St"
    (mkVenue 1 "Blue Bottle" "Main St") (mkVenue 2 "blue bottle" "main st") []
    (by decide)

/-- C4 is false on the code: a duplicate-update confirmation whose
identity token matches but whose supplied venue (2) and visit date
(2024-02-02) both differ from the stored review's (venue 1, 2024-01-01)
is applied, not refused — the supplied date is even written into the
review. -/
theorem C4_counterexample :
    reviewROne.identity_pin = "p" ∧
    ¬ (2 : Nat) = reviewROne.venue_id ∧
    ¬ "2024-02-02" = reviewROne.visit_date ∧
    (duplicate_update dbOne 1 2 "2024-02-02" "A" "p" 1 1 1 1 1 1 "").1 = .ok ∧
    (duplicate_update dbOne 1 2 "2024-02-02" "A" "p" 1 1 1 1 1 1 "").2.reviews.map
      Review.visit_date = ["2024-02-02"] := by
  decide

/-- C4 amended: the only guard on a duplicate-update confirmation is
the identity token: on a token mismatch the update is refused and the
store is left entirely unchanged; the supplied venue/date are never
compared with the stored review. -/
theorem C4_amended_token_only_guard (db : DB) (erid vid : Nat)
    (vd rn pin : String) (c co sv hy am fo : Int) (nt : String) (r : Review)
    (hfind : db.reviews.find? (fun x => x.id == erid) = some r)
    (hpin : ¬ r.identity_pin = pin) :
    duplicate_update db erid vid vd rn pin c co sv hy am fo nt = (.denied, db) := by
  unfold duplicate_update
  rw [hfind]
  simp [hpin]

/-- Witness for the amended C4: a forged confirmation with token "zz"
against `reviewROne` (token "p") is refused with the store unchanged. -/
theorem C4_amended_token_only_guard_witness :
    duplicate_update dbOne 1 1 "2024-01-01" "A" "zz" 1 1 1 1 1 1 "" = (.denied, dbOne) :=
  C4_amended_token_only_guard dbOne 1 1 "2024-01-01" "A" "zz" 1 1 1 1 1 1 ""
    reviewROne (by decide) (by decide)

/-- C6 is false on the code: editing review 1 of `dbOne` through
`edit_review_save` rewrites its venue-text snapshot from
"Corner"/"High St" to the newly resolved venue's "New Cafe"/"Low St"
(main.py lines 489-490). -/
theorem C6_counterexample :
    dbOne.reviews.map Review.venue_name_raw = ["Corner"] ∧
    dbOne.reviews.map Review.venue_location_raw = ["High St"] ∧
    (edit_review_save dbOne 1 formEditOne).1 = .ok ∧
    (edit_review_save dbOne 1 formEditOne).2.reviews.map Review.venue_name_raw =
      ["New Cafe"] ∧
    (edit_review_save dbOne 1 formEditOne).2.reviews.map Review.venue_location_raw =
      ["Low St"] := by
  decide

/-- C6 amended: the snapshot is untouched by average recomputation and
by duplicate-resolution (every post-state snapshot value already existed
in the pre-state), but `edit_review_save` rewrites the edited review's
snapshot to the resolved venue's current name/location. -/
theorem C6_amended_snapshot_frame (db : DB) (vid erid vvid : Nat)
    (vd rn pin : String) (c co sv hy am fo : Int) (nt : String)
    (f : ReviewForm) (rid : Nat) (r2 r3 : Review) :
    ((update_venue_averages db vid).reviews = db.reviews) ∧
    (r2 ∈ (duplicate_update db erid vvid vd rn pin c co sv hy am fo nt).2.reviews →
      ∃ e ∈ db.reviews, r2.venue_name_raw = e.venue_name_raw ∧
        r2.venue_location_raw = e.venue_location_raw) ∧
    (r3 ∈ (edit_review_save db rid f).2.reviews → r3 ∈ db.reviews ∨
      (r3.venue_name_raw = (resolve_venue db f.venue_name f.location).1.name ∧
        r3.venue_location_raw = (resolve_venue db f.venue_name f.location).1.location)) := by
  refine ⟨update_venue_averages_reviews db vid, ?_, ?_⟩
  · intro hmem
    simp only [duplicate_update] at hmem
    cases hfind : db.reviews.find? (fun x => x.id == erid) with
    | none =>
      rw [hfind] at hmem
      exact ⟨r2, hmem, rfl, rfl⟩
    | some e =>
      rw [hfind] at hmem
      by_cases hpin : (e.identity_pin == pin) = true
      · simp only [hpin, Bool.not_true, Bool.false_eq_true, if_false,
          update_venue_averages_reviews] at hmem
        rcases List.mem_map.mp hmem with ⟨x, hx, hxr⟩
        by_cases hid : (x.id == erid) = true
        · rw [if_pos hid] at hxr
          exact ⟨e, List.mem_of_find?_eq_some hfind, by rw [← hxr], by rw [← hxr]⟩
        · rw [if_neg hid] at hxr
          exact ⟨x, hx, by rw [← hxr], by rw [← hxr]⟩
      · simp only [hpin, Bool.not_false, if_true] at hmem
        exact ⟨r2, hmem, rfl, rfl⟩
  · intro hmem
    simp only [edit_review_save] at hmem
    cases hfind : db.reviews.find? (fun x => x.id == rid) with
    | none =>
      rw [hfind] at hmem
      exact Or.inl hmem
    | some r0 =>
      rw [hfind] at hmem
      by_cases hpin : (pyStrip f.identity_pin == pyStrip r0.identity_pin) = true
      · simp only [hpin, Bool.not_true, Bool.false_eq_true, if_false] at hmem
        have hrev : ∀ (st : DB) (b : Bool) (i : Nat),
            ((if b then update_venue_averages st i else st)).reviews = st.reviews := by
          intro st b i
          cases b <;> simp [update_venue_averages_reviews]
        rw [hrev, update_venue_averages_reviews, resolve_venue_reviews] at hmem
        rcases List.mem_map.mp hmem with ⟨x, hx, hxr⟩
        by_cases hid : (x.id == rid) = true
        · rw [if_pos hid] at hxr
          right
          rw [← hxr]
          exact ⟨rfl, rfl⟩
        · rw [if_neg hid] at hxr
          exact Or.inl (hxr ▸ hx)
      · simp only [hpin, Bool.not_false, if_true] at hmem
        exact Or.inl hmem

/-- Witness for the amended C6: average recomputation leaves `dbOne`'s
review table intact; the overwritten duplicate keeps a pre-existing
snapshot; the edited review's snapshot equals the resolved venue's
name/location. -/
theorem C6_amended_snapshot_frame_witness :
    (update_venue_averages dbOne 1).reviews = dbOne.reviews ∧
    (∃ e ∈ dbOne.reviews, reviewOverwrittenOne.venue_name_raw = e.venue_name_raw ∧
      reviewOverwrittenOne.venue_location_raw = e.venue_location_raw) ∧
    (reviewEditedOne ∈ dbOne.reviews ∨
      (reviewEditedOne.venue_name_raw =
          (resolve_venue dbOne formEditOne.venue_name formEditOne.location).1.name ∧
        reviewEditedOne.venue_location_raw =
          (resolve_venue dbOne formEditOne.venue_name formEditOne.location).1.location)) :=
  ⟨(C6_amended_snapshot_frame dbOne 1 1 1 "2024-01-01" "A" "p" 2 2 2 2 2 2 ""
      formEditOne 1 reviewOverwrittenOne reviewEditedOne).1,
    (C6_amended_snapshot_frame dbOne 1 1 1 "2024-01-01" "A" "p" 2 2 2 2 2 2 ""
      formEditOne 1 reviewOverwrittenOne reviewEditedOne).2.1 (by decide),
    (C6_amended_snapshot_frame dbOne 1 1 1 "2024-01-01" "A" "p" 2 2 2 2 2 2 ""
      formEditOne 1 reviewOverwrittenOne reviewEditedOne).2.2 (by decide)⟩

/-- C7 is false on the code: a submission with the unparsable visit
date "not-a-date" (and one with the future date "2999-12-31") is not
rejected — `add_review` persists it and writes to the store; no
`InvalidDate` outcome exists anywhere in the code. -/
theorem C7_counterexample :
    (add_review emptyDB formBadDate).1 = .redirectReviews ∧
    (add_review emptyDB formBadDate).2.reviews.map Review.visit_date = ["not-a-date"] ∧
    ¬ (add_review emptyDB formBadDate).2.reviews = emptyDB.reviews ∧
    (add_review emptyDB formFutureDate).1 = .redirectReviews ∧
    (add_review emptyDB formFutureDate).2.reviews.map Review.visit_date =
      ["2999-12-31"] := by
  decide

/-- C7 amended: the code performs no date validation at all — whenever
the (token, venue, date) triple is not a duplicate, `add_review` accepts
any `visit_date` string verbatim, future or unparsable alike, and
persists it. -/
theorem C7_amended_no_date_validation (db : DB) (f : ReviewForm)
    (h : db.reviews.find? (reviewConflicts f.identity_pin
          (resolve_venue db f.venue_name f.location).1.id f.visit_date) = none) :
    (add_review db f).1 = .redirectReviews ∧
    (add_review db f).2.reviews.map Review.visit_date =
      db.reviews.map Review.visit_date ++ [f.visit_date] := by
  simp only [add_review]
  rw [resolve_venue_reviews, h]
  simp only [update_venue_averages_reviews, resolve_venue_reviews]
  exact ⟨trivial, by simp⟩

/-- Witness for the amended C7: the garbage date "not-a-date" is
persisted verbatim on the empty store. -/
theorem C7_amended_no_date_validation_witness :
    (add_review emptyDB formBadDate).1 = .redirectReviews ∧
    (add_review emptyDB formBadDate).2.reviews.map Review.visit_date =
      emptyDB.reviews.map Review.visit_date ++ [formBadDate.visit_date] :=
  C7_amended_no_date_validation emptyDB formBadDate (by decide)

end CoffeeRatings
